import Mathlib

/-!
Verification development for the libisn layered protocol stack (C sources
under src/c).  Each C function relevant to the checked properties is given a
shallow embedding as an executable Lean definition; machine integers are
modelled as `Nat` with explicit `% 2^w` where wrap-around matters, signed
views as `Int`.  Pointers that may be NULL are modelled as `Option`.
-/

namespace Isn

/-- 2^32, the modulus of `uint32_t` arithmetic. -/
def U32 : Nat := 4294967296

/-- 2^31, threshold of the sign bit of `int32_t`. -/
def I32HALF : Nat := 2147483648

/-- Reinterpret a `uint32_t` bit pattern as `int32_t` (two's complement). -/
def toInt32 (n : Nat) : Int :=
  if n % U32 < I32HALF then ((n % U32 : Nat) : Int) else ((n % U32 : Nat) : Int) - (U32 : Int)

/-- `uint32_t` subtraction `a - b` (wrap-around modulo 2^32). -/
def usub32 (a b : Nat) : Nat := ((a % U32) + (U32 - b % U32)) % U32

/-- `isn_clock.h`: `isn_clock_diff(a, b) = (int32_t)(a - b)` on `uint32_t` counters. -/
def isn_clock_diff (a b : Nat) : Int := toInt32 (usub32 a b)

/-- CRC-8 lookup table from `isn_frame.c` (`crc8_table`, the default fast path). -/
def crc8_table : List Nat := [
    0, 77, 154, 215, 121, 52, 227, 174, 242, 191, 104, 37, 139, 198, 17,
    92, 169, 228, 51, 126, 208, 157, 74, 7, 91, 22, 193, 140, 34, 111,
    184, 245, 31, 82, 133, 200, 102, 43, 252, 177, 237, 160, 119, 58, 148,
    217, 14, 67, 182, 251, 44, 97, 207, 130, 85, 24, 68, 9, 222, 147, 61,
    112, 167, 234, 62, 115, 164, 233, 71, 10, 221, 144, 204, 129, 86, 27,
    181, 248, 47, 98, 151, 218, 13, 64, 238, 163, 116, 57, 101, 40, 255,
    178, 28, 81, 134, 203, 33, 108, 187, 246, 88, 21, 194, 143, 211, 158,
    73, 4, 170, 231, 48, 125, 136, 197, 18, 95, 241, 188, 107, 38, 122,
    55, 224, 173, 3, 78, 153, 212, 124, 49, 230, 171, 5, 72, 159, 210,
    142, 195, 20, 89, 247, 186, 109, 32, 213, 152, 79, 2, 172, 225, 54,
    123, 39, 106, 189, 240, 94, 19, 196, 137, 99, 46, 249, 180, 26, 87,
    128, 205, 145, 220, 11, 70, 232, 165, 114, 63, 202, 135, 80, 29, 179,
    254, 41, 100, 56, 117, 162, 239, 65, 12, 219, 150, 66, 15, 216, 149,
    59, 118, 161, 236, 176, 253, 42, 103, 201, 132, 83, 30, 235, 166, 113,
    60, 146, 223, 8, 69, 25, 84, 131, 206, 96, 45, 250, 183, 93, 16, 199,
    138, 36, 105, 190, 243, 175, 226, 53, 120, 214, 155, 76, 1, 244, 185,
    110, 35, 141, 192, 23, 90, 6, 75, 156, 209, 127, 50, 229, 168]

/-- `isn_frame.c`: `crc8(b)` — table lookup; the `% 256` models the `uint8_t`
parameter conversion. -/
def crc8 (b : Nat) : Nat := crc8_table.getD (b % 256) 0

/-- One shift-and-xor round of the slow CRC-8 (`__ISN_FRAME_SLOWCRC8__` variant).
Modelled from the spec: `ISNCF_CRC8_POLYNOMIAL_NORMAL` lives in `isn_def.h`,
which is absent from the tree; the spec (§4.4, §6) gives polynomial `0x4D`. -/
def crc8_slow_round (b : Nat) : Nat :=
  let x := (b * 2) % 256
  if b % 256 ≥ 128 then x ^^^ 0x4D else x

/-- The slow CRC-8 of `isn_frame.c`: eight shift-and-xor rounds. -/
def crc8_slow (b : Nat) : Nat :=
  crc8_slow_round (crc8_slow_round (crc8_slow_round (crc8_slow_round
    (crc8_slow_round (crc8_slow_round (crc8_slow_round (crc8_slow_round (b % 256))))))))

/-- Running CRC as computed by both `isn_frame_send` and `isn_frame_recv`:
start from `init` and absorb each byte `x` by `crc = crc8(crc ^ x)`. -/
def crc8_run (init : Nat) (l : List Nat) : Nat :=
  l.foldl (fun c x => crc8 (c ^^^ x)) init

set_option maxRecDepth 4096 in
/-- The transcription of the lookup table agrees with the polynomial definition
on every byte (cross-validation of the two source variants of `crc8`). -/
theorem crc8_table_correct : ∀ b : Nat, b < 256 → crc8 b = crc8_slow b := by decide

/-- `ISN_FRAME_MAXSIZE` from `isn_frame.h`. -/
def ISN_FRAME_MAXSIZE : Nat := 64

/-- `isn_frame.c` `isn_frame_send`: given the payload, produce the on-wire
frame (header byte, payload, optional CRC-8 trailer) and the return value.
The header byte is `0xC0 - 1 + size` (as `uint8_t`), xored with `0x40` when
CRC is enabled; the CRC is the running CRC over header plus payload. -/
def isn_frame_send (crc_enabled : Bool) (payload : List Nat) : List Nat × Nat :=
  let header := (0xC0 - 1 + payload.length) % 256
  if crc_enabled then
    let header := header ^^^ 0x40
    let frame := header :: payload
    (frame ++ [crc8_run 0 frame], payload.length)
  else
    (header :: payload, payload.length)

/-- `isn_frame.c` receive state constants. -/
def IS_NONE : Nat := 0
/-- `isn_frame.c` receive state: collecting a frame. -/
def IS_IN_MESSAGE : Nat := 1
/-- `isn_frame.c` receive state: forwarding a received frame to the child. -/
def IS_FW_MESSAGE : Nat := 2

/-- The mutable state of one `isn_frame_t` instance that `isn_frame_recv`
touches, plus its configuration (`crc_enabled`, `frame_timeout`, whether an
`other` layer is attached) and the rx statistics counters. -/
structure FrameState where
  state : Nat
  crc : Nat
  recvBuf : List Nat
  recvSize : Nat
  recvLen : Nat
  recvFwed : Nat
  lastTs : Nat
  rxPackets : Nat
  rxErrors : Nat
  rxDropped : Nat
  rxRetries : Nat
  rxCounter : Nat
  crcEnabled : Bool
  frameTimeout : Nat
  hasOther : Bool
  deriving Repr, DecidableEq

/-- Outcome of the byte loop of `isn_frame_recv`: final state, the payloads
passed to `child->recv` (in order), the byte runs passed to `other->recv`,
and `some i` when the loop returned early (`return i` on a child retry). -/
structure FrameLoopOut where
  st : FrameState
  fwd : List (List Nat)
  oth : List (List Nat)
  earlyRet : Option Nat
  deriving Repr, DecidableEq

/-- Outcome of a whole `isn_frame_recv` call. -/
structure FrameRecvOut where
  st : FrameState
  fwd : List (List Nat)
  oth : List (List Nat)
  ret : Nat
  deriving Repr, DecidableEq

/-- The idle-timeout check at the top of `isn_frame_recv` (lines 115-121):
when `(uint32_t)isn_clock_elapsed(last_ts) > frame_timeout` (the `int32_t`
elapsed value is converted back to `uint32_t` by the C comparison against the
`uint32_t` field), reset to Idle, count a drop if a frame was in flight, and
clear the receive counters. -/
def isn_frame_timeout_check (st : FrameState) (now : Nat) : FrameState :=
  if usub32 now st.lastTs > st.frameTimeout then
    { st with state := IS_NONE,
              rxDropped := st.rxDropped + (if st.recvLen ≠ 0 then 1 else 0),
              recvSize := 0, recvLen := 0 }
  else st

/-- The byte loop of `isn_frame_recv` (lines 129-191).  `childConsume` models
`child->recv` (it is given the offered slice and returns the consumed count);
`i` is the loop counter used for the early `return i`.  Writes into the
64-byte `recv_buf` are `List.set` (in the C an out-of-bounds index would be
an out-of-bounds write; no claim exercises that). -/
def isn_frame_loop (childConsume : List Nat → Nat) (st : FrameState) :
    List Nat → Nat → FrameLoopOut
  | [], _ => ⟨st, [], [], none⟩
  | b :: rest, i =>
    let stepRes : FrameState × List (List Nat) :=
      if st.state = IS_NONE then
        if b > 0x80 then
          let flushed : FrameState × List (List Nat) :=
            if st.recvSize ≠ 0 then
              ({ st with recvSize := 0, recvLen := 0 },
               if st.hasOther then [st.recvBuf.take st.recvSize] else [])
            else (st, [])
          ({ flushed.1 with
               state := IS_IN_MESSAGE,
               crc := if st.crcEnabled then crc8 b else flushed.1.crc,
               recvLen := (b &&& 0x3F) + 1 }, flushed.2)
        else
          ({ st with recvBuf := st.recvBuf.set st.recvSize b,
                     recvSize := st.recvSize + 1 }, [])
      else if st.state = IS_IN_MESSAGE then
        if st.recvSize = st.recvLen ∧ st.crcEnabled = true then
          if b = st.crc then
            ({ st with state := IS_FW_MESSAGE, recvFwed := 0,
                       rxPackets := st.rxPackets + 1,
                       rxCounter := st.rxCounter + st.recvSize }, [])
          else
            ({ st with rxErrors := st.rxErrors + 1,
                       recvSize := 0, recvLen := 0, state := IS_NONE }, [])
        else
          let st1 : FrameState :=
            { st with recvBuf := st.recvBuf.set st.recvSize b,
                      recvSize := st.recvSize + 1 }
          if st.crcEnabled = true then
            ({ st1 with crc := crc8 (st1.crc ^^^ b) }, [])
          else if st1.recvSize = st1.recvLen then
            ({ st1 with state := IS_FW_MESSAGE, recvFwed := 0,
                        rxPackets := st1.rxPackets + 1,
                        rxCounter := st1.rxCounter + st1.recvSize }, [])
          else (st1, [])
      else (st, [])
    let st1 := stepRes.1
    if st1.state = IS_FW_MESSAGE then
      let offered := (st1.recvBuf.drop st1.recvFwed).take st1.recvSize
      let consumed := childConsume offered
      if consumed < st1.recvSize then
        ⟨{ st1 with recvFwed := st1.recvFwed + consumed,
                    recvSize := st1.recvSize - consumed,
                    rxRetries := st1.rxRetries + 1 },
         [offered], stepRes.2, some i⟩
      else
        let st2 := { st1 with recvSize := 0, recvLen := 0, state := IS_NONE }
        let out := isn_frame_loop childConsume st2 rest (i + 1)
        ⟨out.st, offered :: out.fwd, stepRes.2 ++ out.oth, out.earlyRet⟩
    else
      let out := isn_frame_loop childConsume st1 rest (i + 1)
      ⟨out.st, out.fwd, stepRes.2 ++ out.oth, out.earlyRet⟩

/-- The part of `isn_frame_recv` after the timeout check and `last_ts`
update: empty-size guard, the byte loop, and the final flush of non-framed
data to `other`. -/
def isn_frame_recv_body (childConsume : List Nat → Nat) (st : FrameState)
    (src : List Nat) : FrameRecvOut :=
  if src.length = 0 then
    ⟨{ st with rxDropped := st.rxDropped + 1 }, [], [], 0⟩
  else
    let out := isn_frame_loop childConsume st src 0
    match out.earlyRet with
    | some i => ⟨out.st, out.fwd, out.oth, i⟩
    | none =>
      if out.st.recvSize ≠ 0 ∧ out.st.recvLen = 0 then
        ⟨{ out.st with recvSize := 0 }, out.fwd,
         out.oth ++ (if out.st.hasOther then [out.st.recvBuf.take out.st.recvSize] else []),
         src.length⟩
      else ⟨out.st, out.fwd, out.oth, src.length⟩

/-- `isn_frame.c` `isn_frame_recv` for a non-null `src`: the idle-timeout
check and `last_ts` update run on every call, then the body processes the
bytes. -/
def isn_frame_recv (childConsume : List Nat → Nat) (st0 : FrameState)
    (now : Nat) (src : List Nat) : FrameRecvOut :=
  isn_frame_recv_body childConsume
    { isn_frame_timeout_check st0 now with lastTs := now } src

/-- A clean Compact-mode (CRC) frame layer used by concrete witnesses:
Idle state, empty 64-byte staging buffer, timeout 100, `other` attached. -/
def frameWitnessState : FrameState :=
  ⟨IS_NONE, 0, List.replicate 64 0, 0, 0, 0, 0, 0, 0, 0, 0, 0, true, 100, true⟩

/-- Write the bytes of `l` into `buf` starting at index `i`
(the effect of successive `recv_buf[recv_size++] = *buf` stores). -/
def writeSeq (buf : List Nat) (i : Nat) : List Nat → List Nat
  | [] => buf
  | b :: bs => writeSeq (buf.set i b) (i + 1) bs

/-! ### Message layer (`isn_msg.c`) -/

/-- `ISN_PROTO_MSG` from `isn.h`. -/
def ISN_PROTO_MSG : Nat := 0x7F
/-- `ISN_MSG_PRI_DESCRIPTION` from `isn_msg.h`. -/
def ISN_MSG_PRI_DESCRIPTION : Nat := 31
/-- `ISN_MSG_PRI_DESCRIPTIONLOW` from `isn_msg.h`. -/
def ISN_MSG_PRI_DESCRIPTIONLOW : Nat := 30
/-- `ISN_MSG_PRI_QUERY_ARGS` from `isn_msg.h`. -/
def ISN_MSG_PRI_QUERY_ARGS : Nat := 27
/-- `ISN_MSG_PRI_QUERY_WAIT` from `isn_msg.h` (internal wait-for-reply state). -/
def ISN_MSG_PRI_QUERY_WAIT : Nat := 26
/-- `ISN_MGG_PRI_UPDATE_ARGS` from `isn_msg.h` (sic). -/
def ISN_MGG_PRI_UPDATE_ARGS : Nat := 25
/-- `ISN_MSG_PRI_HIGHEST` from `isn_msg.h`. -/
def ISN_MSG_PRI_HIGHEST : Nat := 15
/-- `ISN_MSG_PRI_CLEAR` from `isn_msg.h`. -/
def ISN_MSG_PRI_CLEAR : Nat := 0

/-- One row of the message table (`isn_msg_table_t`): its mutable `priority`,
its payload `size`, and whether a callback `handler` is attached (the handler
itself and the descriptor string play no role in the checked properties). -/
structure MsgSlot where
  priority : Nat
  size : Nat
  hasHandler : Bool
  deriving Repr, DecidableEq

/-- The default slot used for an out-of-range `getD` (never reached under the
stated hypotheses). -/
def mslot0 : MsgSlot := ⟨0, 0, false⟩

/-- The slot-picking loop of `isn_msg_sendnext` (`isn_msg.c` lines 63-76):
scan at most `fuel` slots round-robin from cursor `m`, wrapping to 0, and
pick the first slot with non-zero priority that either is not parked in
`QUERY_WAIT` while unlocked, or matches the received-message index. -/
def isn_msg_pick_aux (tbl : List MsgSlot) (lock recvNum : Nat) :
    Nat → Nat → Option Nat
  | _, 0 => none
  | m, Nat.succ fuel =>
    let m := if m ≥ tbl.length then 0 else m
    let s := tbl.getD m mslot0
    if s.priority > 0 then
      if (s.priority ≠ ISN_MSG_PRI_QUERY_WAIT ∧ lock = 0) ∨ m = recvNum then some m
      else isn_msg_pick_aux tbl lock recvNum (m + 1) fuel
    else isn_msg_pick_aux tbl lock recvNum (m + 1) fuel

/-- The picked slot of `isn_msg_sendnext`: the loop above runs for
`isn_msg_table_size` iterations starting at the `msgnum` cursor. -/
def isn_msg_pick (tbl : List MsgSlot) (lock recvNum msgnum : Nat) : Option Nat :=
  isn_msg_pick_aux tbl lock recvNum msgnum tbl.length

/-- The state of one `isn_message_t` instance touched by the receive path,
for a layer whose `dup` mirror is not set (`dup == NULL`, the `isn_msg_init`
default) and with `CONFIG_ISN_MSG_FAST_LOADING` at its default of 0.
`receivedFull` models `isn_msg_received_data != NULL` (when set the pointer
always points at `message_buffer`); `lockedBits` models the reactor mutex
word affected by `isn_reactor_mutex_lock(obj->busy_mutex)`. -/
structure MsgState where
  table : List MsgSlot
  messageBuffer : List Nat
  receivedFull : Bool
  receivedMsgnum : Nat
  msgnum : Nat
  lock : Nat
  pending : Bool
  lockedBits : Nat
  busyMutex : Nat
  rxPackets : Nat
  rxDropped : Nat
  rxCounter : Nat
  deriving Repr, DecidableEq

/-- `isn_msg.c` `emit` (for a layer without a reactor queue): set the pending
flag. -/
def isn_msg_emit (st : MsgState) : MsgState :=
  if st.pending then st else { st with pending := true }

/-- `isn_msg.c` `isn_msg_post` for a layer with `dup == NULL`: ignore
out-of-table ids; `CLEAR` forces priority 0; otherwise zero-size slots accept
only descriptor-level priorities, and the priority is only ever raised. -/
def isn_msg_post (st : MsgState) (message_id priority : Nat) : MsgState :=
  if message_id ≥ st.table.length then st
  else if priority = ISN_MSG_PRI_CLEAR then
    let s := st.table.getD message_id mslot0
    { st with table := st.table.set message_id ({ s with priority := priority }) }
  else if (st.table.getD message_id mslot0).size ≠ 0 ∨
          priority ≥ ISN_MSG_PRI_DESCRIPTIONLOW then
    let st1 :=
      if (st.table.getD message_id mslot0).priority < priority then
        let s := st.table.getD message_id mslot0
        { st with table := st.table.set message_id ({ s with priority := priority }) }
      else st
    isn_msg_emit st1
  else st

/-- `isn_msg.c` `isn_message_recv` for a non-null `src` (`size` is the length
of `src`).  Mirrors lines 258-312; the `CONFIG_ISN_MSG_FAST_LOADING` block is
compiled out at its default of 0. -/
def isn_message_recv (st : MsgState) (src : List Nat) : MsgState × Nat :=
  if src.length < 2 ∨ src.headD 0 ≠ ISN_PROTO_MSG then
    ({ st with rxDropped := st.rxDropped + 1 }, src.length)
  else
    let flags := src.getD 1 0
    let msgnum := flags &&& 0x7F
    let dataSize := src.length - 2
    let clamped :=
      if msgnum ≥ st.table.length then (st.table.length - 1, 0) else (msgnum, dataSize)
    let msgnum := clamped.1
    let dataSize := clamped.2
    if dataSize > 0 ∧ st.receivedFull = true then (st, 0)
    else if dataSize > 0 ∧ dataSize ≠ (st.table.getD msgnum mslot0).size then
      ({ st with rxDropped := st.rxDropped + 1 }, src.length)
    else
      let st1 :=
        if (st.table.getD msgnum mslot0).priority ≠ ISN_MGG_PRI_UPDATE_ARGS then
          let st1 :=
            if dataSize > 0 then
              { st with messageBuffer :=
                          (src.drop 2).take dataSize ++ st.messageBuffer.drop dataSize,
                        receivedFull := true,
                        receivedMsgnum := msgnum,
                        lockedBits := st.lockedBits ||| st.busyMutex }
            else st
          isn_msg_post st1 msgnum
            (if flags &&& 0x80 ≠ 0 then ISN_MSG_PRI_DESCRIPTION else ISN_MSG_PRI_HIGHEST)
        else if msgnum = st.lock then isn_msg_emit { st with lock := 0 }
        else st
      ({ st1 with msgnum := msgnum, rxPackets := st1.rxPackets + 1,
                  rxCounter := st1.rxCounter + dataSize }, src.length)

/-! ### Reactor (`isn_reactor.c`, PSoC5 constants: `MUTEX_SHIFT` 20,
`MUTEX_MASK` 0xF, `FUNC_ADDR_MASK` 0x3FFFF, `INDEX_SHIFT` 24) -/

/-- `QUEUE_NEXT(i)`: the link index packed in the top byte of the tasklet
pointer word. -/
def queueNext (w : Nat) : Nat := (w >>> 24) &&& 0xFF

/-- `QUEUE_MUTEX(i)`: the mutex bits of a tasklet pointer word. -/
def queueMutex (w : Nat) : Nat := w &&& (0xF <<< 20)

/-- `QUEUE_FUNC_ADDR(i)` / `QUEUE_FUNC_VALID(i)`: the function address part
of a tasklet pointer word. -/
def queueFuncAddr (w : Nat) : Nat := w &&& 0x3FFFF

/-- `QUEUE_LINK(i,j)`: replace the link byte of word `w` by `j`
(`(w & ~(0xFF<<24)) | (j<<24)` on `uint32_t`). -/
def queueLink (w j : Nat) : Nat := (w &&& 0xFFFFFF) ||| ((j <<< 24) % U32)

/-- `QUEUE_LINKANDCLEAR(i,j)`: word holding only the link byte `j`. -/
def queueLinkAndClear (j : Nat) : Nat := (j <<< 24) % U32

/-- One `isn_tasklet_entry_t`: the (index- and mutex-tagged) tasklet pointer
word, the caller continuation (0 = NULL), the foreign caller queue pointer
(0 = NULL), the argument, and the target time. -/
structure TaskletEntry where
  word : Nat
  caller : Nat
  callerQueue : Nat
  arg : Nat
  time : Nat
  deriving Repr, DecidableEq

/-- Entry with all fields zero (default for out-of-range table reads). -/
def tentry0 : TaskletEntry := ⟨0, 0, 0, 0, 0⟩

/-- The reactor's shared state: the queue table, `queue_mutex_locked_bits`,
`queue_changed`, `queue_free`, `isn_tasklet_queue_size`,
`isn_reactor_timer_trigger`, and the clock (`ISN_CLOCK_NOW`, modelled as a
state field so that executed tasklets may advance it). -/
structure ReactorState where
  table : List TaskletEntry
  locked : Nat
  queueChanged : Bool
  queueFree : Nat
  queueSize : Nat
  timerTrigger : Nat
  now : Nat
  deriving Repr, DecidableEq

/-- The environment executing a tasklet (or caller continuation) function
address with an argument: it may transform the whole reactor state (lock or
unlock mutexes, queue entries, retime itself) and returns the `void *`
return value. -/
def TaskletRun : Type := Nat → Nat → ReactorState → ReactorState × Nat

/-- `isn_clock_remains(t) = (int32_t)(t - now)`. -/
def isn_clock_remains (now t : Nat) : Int := toInt32 (usub32 t now)

/-- `isn_reactor.c` `isn_reactor_mutex_lock` on the locked-bits word:
`queue_mutex_locked_bits |= mutex_bits`. -/
def isn_reactor_mutex_lock (locked mutex_bits : Nat) : Nat := locked ||| mutex_bits

/-- `isn_reactor.c` `isn_reactor_mutex_unlock` on the locked-bits word:
`queue_mutex_locked_bits &= ~mutex_bits` on `uint32_t`. -/
def isn_reactor_mutex_unlock (locked mutex_bits : Nat) : Nat :=
  locked &&& ((U32 - 1) ^^^ (mutex_bits % U32))

/-- `MAX_SLEEP_TIME` from `isn_reactor.c`. -/
def MAX_SLEEP_TIME : Int := 0x0FFFFFFF

/-- Result of `isn_reactor_step`: the new state, the `next_time_to_exec`
accumulator, the executed count, and the execution trace — for every tasklet
the loop actually ran, the pair (its `QUEUE_MUTEX` bits, the
`queue_mutex_locked_bits` at that moment). -/
structure ReactorStepOut where
  st : ReactorState
  nextT : Int
  executed : Nat
  trace : List (Nat × Nat)
  deriving Repr, DecidableEq

/-- The scan loop of `isn_reactor_step` (lines 365-418).  `fuel` bounds the
iteration count (the C loop is bounded by the free-list structure; an
adversarial `run` could relink it into a cycle, which the fuel cuts off).
`i` is the previous index, `j` the current one. -/
def isn_reactor_step_loop (run : TaskletRun) :
    Nat → Nat → Nat → ReactorState → Int → ReactorStepOut
  | 0, _, _, st, nextT => ⟨st, nextT, 0, []⟩
  | Nat.succ fuel, i, j, st, nextT =>
    let ej := st.table.getD j tentry0
    if queueFuncAddr ej.word ≠ 0 then
      if queueMutex ej.word &&& st.locked = 0 then
        let tte := isn_clock_remains st.now ej.time
        if tte ≤ 0 then
          let addr := queueFuncAddr ej.word
          let ran := run addr ej.arg st
          let st1 := ran.1
          let retval := ran.2
          let ej1 := st1.table.getD j tentry0
          let tte1 := isn_clock_remains st1.now ej1.time
          if retval = addr ∨ tte1 ≥ 0 then
            let requeued : ReactorState × Int :=
              if tte1 < 0 then
                ({ st1 with table := st1.table.set j ({ ej1 with time := st1.now }) }, 0)
              else (st1, tte1)
            let st2 := requeued.1
            let j2 := queueNext ((st2.table.getD j tentry0).word)
            let out := isn_reactor_step_loop run fuel j j2 st2 requeued.2
            ⟨out.st, out.nextT, out.executed + 1,
             (queueMutex ej.word, st.locked) :: out.trace⟩
          else
            let st2 :=
              if ej1.caller ≠ 0 then
                if ej1.callerQueue ≠ 0 then st1
                else (run ej1.caller retval st1).1
              else st1
            let nj := queueNext ((st2.table.getD j tentry0).word)
            let ei := st2.table.getD i tentry0
            let st3 := { st2 with table := st2.table.set i ({ ei with word := queueLink ei.word nj }) }
            let nf := queueNext ((st3.table.getD st3.queueFree tentry0).word)
            let ej2 := st3.table.getD j tentry0
            let st4 := { st3 with table := st3.table.set j ({ ej2 with word := queueLinkAndClear nf }) }
            let ef := st4.table.getD st4.queueFree tentry0
            let st5 := { st4 with table := st4.table.set st4.queueFree ({ ef with word := queueLink ef.word j }),
                                  queueSize := st4.queueSize - 1,
                                  queueChanged := st4.queueSize - 1 ≠ 0 }
            let j3 := queueNext ((st5.table.getD i tentry0).word)
            let out := isn_reactor_step_loop run fuel i j3 st5 nextT
            ⟨out.st, out.nextT, out.executed + 1,
             (queueMutex ej.word, st.locked) :: out.trace⟩
        else
          let nextT1 := if tte < nextT then tte else nextT
          let out := isn_reactor_step_loop run fuel j (queueNext ej.word) st nextT1
          ⟨out.st, out.nextT, out.executed, out.trace⟩
      else
        let out := isn_reactor_step_loop run fuel j (queueNext ej.word) st nextT
        ⟨out.st, out.nextT, out.executed, out.trace⟩
    else ⟨st, nextT, 0, []⟩

/-- `isn_reactor.c` `isn_reactor_step`: run the scan loop when the queue
changed or the timer trigger has passed, then publish the next trigger time. -/
def isn_reactor_step (run : TaskletRun) (fuel : Nat) (st : ReactorState) : ReactorStepOut :=
  if st.queueChanged ∨ isn_clock_remains st.now st.timerTrigger ≤ 0 then
    let st1 := { st with queueChanged := false }
    let j0 := queueNext ((st1.table.getD 0 tentry0).word)
    let out := isn_reactor_step_loop run fuel 0 j0 st1 MAX_SLEEP_TIME
    ⟨{ out.st with timerTrigger := (((out.st.now : Int) + out.nextT).emod (U32 : Int)).toNat },
     out.nextT, out.executed, out.trace⟩
  else ⟨st, MAX_SLEEP_TIME, 0, []⟩

/-! ### Dispatch (`isn_dispatch.c`) -/

/-- `ISN_PROTO_OTHER` from `isn_dispatch.h`. -/
def ISN_PROTO_OTHER : Int := -1

/-- Frame-family protocol tags and masks used by the dispatch exceptions.
Modelled from the spec: they live in `isn_def.h`, which is absent from the
tree; the spec (§6) puts Short/Compact frames at `0x80..0xFF` (top bit),
Long frames at `0xDx` (top nibble) and Jumbo frames on a 3-bit tag. -/
def ISN_PROTO_FRAME : Nat := 0x80
/-- Modelled from the spec: mask for the Short/Compact frame family. -/
def ISN_PROTO_FRAME_MASK : Nat := 0x80
/-- Modelled from the spec: Long frame tag. -/
def ISN_PROTO_FRAME_LONG : Nat := 0xD0
/-- Modelled from the spec: mask for the Long frame tag nibble. -/
def ISN_PROTO_FRAME_LONG_MASK : Nat := 0xF0
/-- Modelled from the spec: Jumbo frame tag. -/
def ISN_PROTO_FRAME_JUMBO : Nat := 0xE0
/-- Modelled from the spec: mask for the Jumbo frame tag bits. -/
def ISN_PROTO_FRAME_JUMBO_MASK : Nat := 0xE0

/-- One `isn_bindings_t` row: the bound protocol number (negative values are
the `OTHER` / list-end sentinels), whether the child driver has a `recv`
method, and that method's consumption result for the full buffer. -/
structure DispatchBinding where
  protocol : Int
  hasRecv : Bool
  consume : List Nat → Nat

/-- The matching walk of `isn_dispatch_recv` (lines 36-47): first matching
binding (or an `OTHER` entry) with a `recv` method handles the buffer;
a sentinel with negative protocol stops the walk, which then acks the packet
with `size`. -/
def isn_dispatch_scan (protocol : Int) (buf : List Nat) (size : Nat) :
    List DispatchBinding → Nat
  | [] => size
  | child :: rest =>
    if child.protocol = protocol ∨ child.protocol = ISN_PROTO_OTHER then
      if child.hasRecv then child.consume buf
      else if child.protocol ≥ 0 then isn_dispatch_scan protocol buf size rest
      else size
    else if child.protocol ≥ 0 then isn_dispatch_scan protocol buf size rest
    else size

/-- `isn_dispatch.c` `isn_dispatch_recv`.  The C reads `*(const uint8_t*)buf`
(line 27) before the `if (!buf || !size) return size;` guard (line 34): the
buffer is dereferenced unconditionally.  `buf = none` models a NULL pointer
and `some []` a pointer with no readable payload byte; in both cases the
read is an invalid dereference, modelled as `Except.error`. -/
def isn_dispatch_recv (childs : List DispatchBinding) (buf : Option (List Nat))
    (size : Nat) : Except Unit Nat :=
  match buf with
  | none => .error ()
  | some [] => .error ()
  | some (b :: rest) =>
    let protocol : Int :=
      if (b &&& ISN_PROTO_FRAME_MASK) = ISN_PROTO_FRAME then ISN_PROTO_FRAME
      else if (b &&& ISN_PROTO_FRAME_LONG_MASK) = ISN_PROTO_FRAME_LONG then ISN_PROTO_FRAME_LONG
      else if (b &&& ISN_PROTO_FRAME_JUMBO_MASK) = ISN_PROTO_FRAME_JUMBO then ISN_PROTO_FRAME_JUMBO
      else b
    if size = 0 then .ok size
    else .ok (isn_dispatch_scan protocol (b :: rest) size childs)

/-! ### `getsendbuf` walk (`isn_frame.c`, `isn_frame_long.c`, PSoC
`isn_uart.c`) -/

/-- A parent's `getsendbuf` behaviour when a destination pointer is supplied:
the returned size and the value written through `*dest` (`none` = NULL). -/
def ParentGetSendBuf : Type := Nat → Int × Option Nat

/-- PSoC `isn_uart.c` `isn_uart_getsendbuf` with a destination given: when
the TX path is ready and the single buffer unlocked, lock it and hand out
`txbuf` (clamped to the FIFO size); otherwise write NULL and return -1. -/
def isn_uart_getsendbuf (txReady bufLocked : Bool) (txbufAddr txbufSize size : Nat) :
    Int × Option Nat × Bool :=
  if txReady = true ∧ bufLocked = false then
    ((min size txbufSize : Nat), some txbufAddr, true)
  else (-1, none, bufLocked)

/-- `isn_frame.c` `isn_frame_getsendbuf`: clamp to `ISN_FRAME_MAXSIZE`, ask
the parent for `size + xs` where `xs = 1 + crc_enabled`, return the parent's
result minus `xs`, and advance a non-NULL destination past the header byte. -/
def isn_frame_getsendbuf (crc_enabled : Bool) (parent : ParentGetSendBuf)
    (size : Nat) : Int × Option Nat :=
  let size := if size > ISN_FRAME_MAXSIZE then ISN_FRAME_MAXSIZE else size
  let xs : Int := 1 + (if crc_enabled then 1 else 0)
  let res := parent (size + xs.toNat)
  (res.1 - xs, match res.2 with
               | some p => some (p + 1)
               | none => none)

/-- `ISN_FRAME_LONG_MAXSIZE`, header, and overhead from `isn_frame_long.c`. -/
def ISN_FRAME_LONG_MAXSIZE : Nat := 4096
/-- `ISN_FRAME_LONG_HEADER` from `isn_frame_long.c`. -/
def ISN_FRAME_LONG_HEADER : Nat := 2
/-- `ISN_FRAME_LONG_OVERHEAD` from `isn_frame_long.c` (2-byte header plus
2-byte CRC-16 footer). -/
def ISN_FRAME_LONG_OVERHEAD : Nat := 4

/-- `isn_frame_long.c` `isn_frame_long_getsendbuf`: same walk with a 4-byte
overhead and a 2-byte header offset. -/
def isn_frame_long_getsendbuf (parent : ParentGetSendBuf) (size : Nat) :
    Int × Option Nat :=
  let size := if size > ISN_FRAME_LONG_MAXSIZE then ISN_FRAME_LONG_MAXSIZE else size
  let res := parent (size + ISN_FRAME_LONG_OVERHEAD)
  (res.1 - ISN_FRAME_LONG_OVERHEAD,
   match res.2 with
   | some p => some (p + ISN_FRAME_LONG_HEADER)
   | none => none)

/-- A trivial tasklet environment for the reactor witness: every call leaves
the state unchanged and returns NULL. -/
def reactorWitnessRun : TaskletRun := fun _ _ st => (st, 0)

/-- A concrete four-cell reactor queue for the witness: cell 1 holds a ready
tasklet at address `0x100` with mutex bit `1 << 20`; the lock word is clear. -/
def reactorWitnessState : ReactorState :=
  ⟨[⟨1 <<< 24, 0, 0, 0, 0⟩, ⟨0x100 ||| (2 <<< 24) ||| (1 <<< 20), 0, 0, 7, 0⟩,
    ⟨3 <<< 24, 0, 0, 0, 0⟩, ⟨0, 0, 0, 0, 0⟩], 0, true, 2, 1, 0, 0⟩

/-! ## Theorems -/

/-- C8: for all 32-bit timestamps at distance below `2^31`, `clock_diff`
equals the signed difference, i.e. two's-complement subtraction interpreted
as a signed 32-bit value handles counter overflow correctly. -/
theorem isn_clock_diff_signed (a b : Nat) (ha : a < U32) (hb : b < U32)
    (hdist : |(a : Int) - (b : Int)| < (I32HALF : Int)) :
    isn_clock_diff a b = (a : Int) - (b : Int) := by
  rw [abs_lt] at hdist
  unfold isn_clock_diff toInt32 usub32 U32 I32HALF at *
  split <;> omega

/-- Witness for `isn_clock_diff_signed` at a pair that wraps around zero. -/
theorem isn_clock_diff_signed_witness :
    isn_clock_diff 5 4294967294 = (5 : Int) - (4294967294 : Int) + U32 ∧
    isn_clock_diff 10 3 = (10 : Int) - (3 : Int) := by
  constructor
  · decide
  · exact isn_clock_diff_signed 10 3 (by decide) (by decide) (by decide)

/-- Counterexample to C2 as stated: a Short-mode (no-CRC) layer sending a
1-byte payload emits the header byte `0xC0`, which is not in `0x80..0xBF`. -/
theorem isn_frame_send_header_range_cx :
    (isn_frame_send false [0]).1.headD 0 = 0xC0 ∧
    ¬ ((isn_frame_send false [0]).1.headD 0 ≤ 0xBF) := by decide

/-- C2 (amended): for payloads of 1..64 bytes, a Short-mode (no-CRC) layer
emits a header byte in `0xC0..0xFF` with payload length − 1 in its low six
bits and no trailer, while a Compact-mode (CRC) layer emits a header byte in
`0x80..0xBF` with length − 1 in the low six bits, followed after the payload
by the running CRC-8 over header plus payload. -/
theorem isn_frame_send_header_ranges (payload : List Nat)
    (h1 : 1 ≤ payload.length) (h2 : payload.length ≤ 64) :
    (∃ h, (isn_frame_send false payload).1 = h :: payload ∧
       0xC0 ≤ h ∧ h ≤ 0xFF ∧ h &&& 0x3F = payload.length - 1) ∧
    (∃ h, (isn_frame_send true payload).1 =
        h :: (payload ++ [crc8_run 0 (h :: payload)]) ∧
       0x80 ≤ h ∧ h ≤ 0xBF ∧ h &&& 0x3F = payload.length - 1) := by
  have hand : ∀ d, d < 64 → (192 + d) &&& 63 = d := by decide
  have hxor : ∀ d, d < 64 → (192 + d) ^^^ 64 = 128 + d := by decide
  have hand2 : ∀ d, d < 64 → (128 + d) &&& 63 = d := by decide
  have hmod : (0xC0 - 1 + payload.length) % 256 = 192 + (payload.length - 1) := by
    omega
  constructor
  · refine ⟨192 + (payload.length - 1), ?_, by omega, by omega,
      hand _ (by omega)⟩
    simp only [isn_frame_send, if_neg, Bool.false_eq_true, not_false_iff, if_false, hmod]
  · refine ⟨128 + (payload.length - 1), ?_, by omega, by omega,
      hand2 _ (by omega)⟩
    simp only [isn_frame_send, if_pos, hmod, hxor _ (by omega : payload.length - 1 < 64),
      List.cons_append]

/-- Witness for `isn_frame_send_header_ranges` on a 1-byte payload. -/
theorem isn_frame_send_header_ranges_witness :
    (∃ h, (isn_frame_send false [7]).1 = h :: [7] ∧
       0xC0 ≤ h ∧ h ≤ 0xFF ∧ h &&& 0x3F = ([7] : List Nat).length - 1) ∧
    (∃ h, (isn_frame_send true [7]).1 =
        h :: ([7] ++ [crc8_run 0 (h :: [7])]) ∧
       0x80 ≤ h ∧ h ≤ 0xBF ∧ h &&& 0x3F = ([7] : List Nat).length - 1) :=
  isn_frame_send_header_ranges [7] (by decide) (by decide)

/-- Counterexample to C7 as stated: a Short-mode frame layer whose parent
reports unavailability (returns -1 with a NULL destination) itself returns
-2, not -1 (it subtracts its 1-byte overhead from the parent's -1);
the destination does remain NULL. -/
theorem isn_frame_getsendbuf_unavail_cx :
    isn_frame_getsendbuf false (fun _ => (-1, none)) 10 = (-2, none) ∧
    ((-2 : Int) ≠ -1) := by
  constructor
  · rfl
  · decide

/-- C7 (amended): an adapter layer (PSoC UART) with no free buffer returns
-1 and sets the destination to NULL; a Short/Compact/Long frame layer whose
parent reports unavailability keeps the destination NULL but propagates the
failure as `-1 - overhead`: -2 (short), -3 (compact), -5 (long) — a negative
value, but not -1. -/
theorem getsendbuf_unavailable_results (parent : ParentGetSendBuf)
    (hparent : ∀ sz, parent sz = (-1, none))
    (txbufAddr txbufSize size : Nat) :
    isn_uart_getsendbuf true true txbufAddr txbufSize size = (-1, none, true) ∧
    isn_frame_getsendbuf false parent size = (-2, none) ∧
    isn_frame_getsendbuf true parent size = (-3, none) ∧
    isn_frame_long_getsendbuf parent size = (-5, none) := by
  refine ⟨?_, ?_, ?_, ?_⟩
  · simp [isn_uart_getsendbuf]
  · simp [isn_frame_getsendbuf, hparent]
  · simp [isn_frame_getsendbuf, hparent]
  · simp [isn_frame_long_getsendbuf, hparent, ISN_FRAME_LONG_OVERHEAD, ISN_FRAME_LONG_HEADER]

/-- Witness for `getsendbuf_unavailable_results` with a constant parent. -/
theorem getsendbuf_unavailable_results_witness :
    isn_uart_getsendbuf true true 0 64 10 = (-1, none, true) ∧
    isn_frame_getsendbuf false (fun _ => (-1, none)) 10 = (-2, none) ∧
    isn_frame_getsendbuf true (fun _ => (-1, none)) 10 = (-3, none) ∧
    isn_frame_long_getsendbuf (fun _ => (-1, none)) 10 = (-5, none) :=
  getsendbuf_unavailable_results (fun _ => (-1, none)) (fun _ => rfl) 0 64 10

/-- C10: `isn_dispatch_recv` reads the first byte of the source buffer to
extract the protocol tag before evaluating the null/empty guard, so for a
NULL or zero-readable-byte buffer the dereference happens unconditionally
and the guard that returns `size` can never prevent it. -/
theorem isn_dispatch_recv_deref_before_guard :
    ∀ (childs : List DispatchBinding) (size : Nat),
      isn_dispatch_recv childs none size = .error () ∧
      isn_dispatch_recv childs (some []) size = .error () := by
  intro childs size
  exact ⟨rfl, rfl⟩

/-- C3: any slot picked by the `isn_msg_sendnext` scan has non-`CLEAR`
priority (a `CLEAR` slot is never transmitted), and a picked slot in the
`QUERY_WAIT` state always equals the received-message index (it is
transmitted only when incoming data for it has arrived). -/
theorem isn_msg_pick_clear_query_wait (tbl : List MsgSlot)
    (lock recvNum msgnum j : Nat)
    (h : isn_msg_pick tbl lock recvNum msgnum = some j) :
    (tbl.getD j mslot0).priority ≠ ISN_MSG_PRI_CLEAR ∧
    ((tbl.getD j mslot0).priority = ISN_MSG_PRI_QUERY_WAIT → j = recvNum) := by
  unfold isn_msg_pick at h
  generalize hfuel : tbl.length = fuel at h
  clear hfuel
  induction fuel generalizing msgnum with
  | zero => simp [isn_msg_pick_aux] at h
  | succ fuel ih =>
    rw [isn_msg_pick_aux] at h
    set m := if msgnum ≥ tbl.length then 0 else msgnum with hm
    by_cases hp : (tbl.getD m mslot0).priority > 0
    · rw [if_pos hp] at h
      by_cases hc : ((tbl.getD m mslot0).priority ≠ ISN_MSG_PRI_QUERY_WAIT ∧ lock = 0) ∨
          m = recvNum
      · rw [if_pos hc] at h
        obtain rfl : m = j := Option.some.inj h
        refine ⟨by simp only [ISN_MSG_PRI_CLEAR]; omega, fun hqw => ?_⟩
        rcases hc with ⟨hne, _⟩ | heq
        · exact absurd hqw hne
        · exact heq
      · rw [if_neg hc] at h
        exact ih _ h
    · rw [if_neg hp] at h
      exact ih _ h

/-- Witness for `isn_msg_pick_clear_query_wait`: a `QUERY_WAIT` slot is
picked when it matches the received-message index. -/
theorem isn_msg_pick_clear_query_wait_witness :
    isn_msg_pick [⟨26, 4, true⟩] 0 0 0 = some 0 ∧
    (([⟨26, 4, true⟩] : List MsgSlot).getD 0 mslot0).priority ≠ ISN_MSG_PRI_CLEAR ∧
    ((([⟨26, 4, true⟩] : List MsgSlot).getD 0 mslot0).priority = ISN_MSG_PRI_QUERY_WAIT →
      0 = 0) :=
  ⟨by decide, isn_msg_pick_clear_query_wait [⟨26, 4, true⟩] 0 0 0 0 (by decide)⟩

/-- Counterexample to C9 as stated: with the staging buffer occupied, a MSG
packet carrying a non-empty argument payload for an out-of-table slot index
(here slot 5 of a 3-slot table) is not rejected with 0: the payload is
discarded, the packet is accounted (`rx_packets` increments) and the call
returns `size`. -/
theorem isn_message_recv_busy_cx :
    (isn_message_recv
      ⟨[⟨0, 8, true⟩, ⟨0, 4, true⟩, ⟨0, 0, false⟩], List.replicate 64 0,
       true, 1, 0, 0, false, 0, 2, 0, 0, 0⟩
      [0x7F, 0x05, 1]).2 = 3 ∧
    (isn_message_recv
      ⟨[⟨0, 8, true⟩, ⟨0, 4, true⟩, ⟨0, 0, false⟩], List.replicate 64 0,
       true, 1, 0, 0, false, 0, 2, 0, 0, 0⟩
      [0x7F, 0x05, 1]).1.rxPackets = 1 := by decide

/-- C9 (amended): when the staging buffer is occupied, a recv call carrying
a non-empty argument payload for an in-table slot index returns 0 (retry
later) and leaves the whole layer state — staging buffer, received-slot
index, slot priorities, lock, and rx statistics — unchanged.  (A packet for
an out-of-table slot index is instead treated as a query for the last slot:
its payload is discarded and the call proceeds.) -/
theorem isn_message_recv_busy_unchanged (st : MsgState) (flags : Nat)
    (d : List Nat) (hfull : st.receivedFull = true) (hd : d ≠ [])
    (hslot : flags &&& 0x7F < st.table.length) :
    isn_message_recv st (ISN_PROTO_MSG :: flags :: d) = (st, 0) := by
  have hdpos : 0 < d.length := List.length_pos.mpr hd
  unfold isn_message_recv
  have hguard : ¬((ISN_PROTO_MSG :: flags :: d).length < 2 ∨
      (ISN_PROTO_MSG :: flags :: d).headD 0 ≠ ISN_PROTO_MSG) := by simp
  rw [if_neg hguard]
  simp only [List.getD_cons_succ, List.getD_cons_zero, List.length_cons,
    Nat.add_sub_cancel]
  rw [if_neg (by omega : ¬ flags &&& 0x7F ≥ st.table.length)]
  rw [if_pos ⟨by omega, hfull⟩]

/-- Witness for `isn_message_recv_busy_unchanged` on a concrete occupied
layer and slot-1 update packet. -/
theorem isn_message_recv_busy_unchanged_witness :
    isn_message_recv
      ⟨[⟨0, 8, true⟩, ⟨0, 4, true⟩, ⟨0, 0, false⟩], List.replicate 64 0,
       true, 1, 0, 0, false, 0, 2, 0, 0, 0⟩
      (ISN_PROTO_MSG :: 0x01 :: [1, 2, 3, 4]) =
    (⟨[⟨0, 8, true⟩, ⟨0, 4, true⟩, ⟨0, 0, false⟩], List.replicate 64 0,
       true, 1, 0, 0, false, 0, 2, 0, 0, 0⟩, 0) :=
  isn_message_recv_busy_unchanged _ 0x01 [1, 2, 3, 4] rfl (by decide) (by decide)

/-- Every execution recorded by the scan loop of `isn_reactor_step` happened
under a clear mutex intersection: the loop only runs a tasklet after the
`!(QUEUE_MUTEX(j) & queue_mutex_locked_bits)` guard. -/
theorem reactor_loop_trace_mem (run : TaskletRun) :
    ∀ (fuel i j : Nat) (st : ReactorState) (nextT : Int) (p : Nat × Nat),
      p ∈ (isn_reactor_step_loop run fuel i j st nextT).trace → p.1 &&& p.2 = 0 := by
  intro fuel
  induction fuel with
  | zero =>
    intro i j st nextT p hp
    simp [isn_reactor_step_loop] at hp
  | succ fuel ih =>
    intro i j st nextT p hp
    rw [isn_reactor_step_loop] at hp
    dsimp only at hp
    split at hp
    · split at hp
      · rename_i hguard
        split at hp
        · split at hp
          · rcases List.mem_cons.mp hp with rfl | hp
            · exact hguard
            · exact ih _ _ _ _ p hp
          · rcases List.mem_cons.mp hp with rfl | hp
            · exact hguard
            · exact ih _ _ _ _ p hp
        · exact ih _ _ _ _ p hp
      · exact ih _ _ _ _ p hp
    · simp at hp

/-- C4: a queued tasklet carrying mutex bits `M` is executed by the reactor
only when `locked_bits & M == 0`; `lock` on an already-locked bit set leaves
the locked-bits word unchanged, and `unlock` on an already-clear bit set
leaves it unchanged. -/
theorem isn_reactor_mutex_guard_and_idempotence :
    (∀ (run : TaskletRun) (fuel : Nat) (st : ReactorState) (p : Nat × Nat),
        p ∈ (isn_reactor_step run fuel st).trace → p.1 &&& p.2 = 0) ∧
    (∀ l m : Nat, l &&& m = m → isn_reactor_mutex_lock l m = l) ∧
    (∀ l m : Nat, l < U32 → m < U32 → l &&& m = 0 →
        isn_reactor_mutex_unlock l m = l) := by
  refine ⟨?_, ?_, ?_⟩
  · intro run fuel st p hp
    unfold isn_reactor_step at hp
    split at hp
    · exact reactor_loop_trace_mem run _ _ _ _ _ p hp
    · simp at hp
  · intro l m h
    unfold isn_reactor_mutex_lock
    apply Nat.eq_of_testBit_eq
    intro i
    have hb := congrArg (fun x => x.testBit i) h
    simp only [Nat.testBit_and] at hb
    simp only [Nat.testBit_or]
    cases hl : l.testBit i <;> cases hm : m.testBit i <;> simp_all
  · intro l m hl hm h
    unfold isn_reactor_mutex_unlock
    apply Nat.eq_of_testBit_eq
    intro i
    have hb := congrArg (fun x => x.testBit i) h
    simp only [Nat.testBit_and, Nat.zero_testBit] at hb
    rw [Nat.mod_eq_of_lt hm]
    simp only [Nat.testBit_and, Nat.testBit_xor]
    by_cases hi : i < 32
    · have hmask : (U32 - 1).testBit i = true := by
        have h32 : U32 - 1 = 2 ^ 32 - 1 := by norm_num [U32]
        rw [h32, Nat.testBit_two_pow_sub_one]
        simp [hi]
      rw [hmask]
      cases hLi : l.testBit i <;> cases hMi : m.testBit i <;> simp_all
    · have hLi : l.testBit i = false := by
        apply Nat.testBit_lt_two_pow
        calc l < U32 := hl
        _ = 2 ^ 32 := by norm_num [U32]
        _ ≤ 2 ^ i := Nat.pow_le_pow_right (by norm_num) (by omega)
      simp [hLi]

/-- Witness for `isn_reactor_mutex_guard_and_idempotence`: a one-entry queue
whose ready tasklet executes with a clear lock word, plus concrete lock and
unlock idempotence instances. -/
theorem isn_reactor_mutex_guard_and_idempotence_witness :
    ((0x100000, 0) ∈ (isn_reactor_step reactorWitnessRun 10 reactorWitnessState).trace ∧
      (0x100000 : Nat) &&& 0 = 0) ∧
    isn_reactor_mutex_lock 0b1010 0b0010 = 0b1010 ∧
    isn_reactor_mutex_unlock 0b1010 0b0101 = 0b1010 := by
  refine ⟨⟨by decide, isn_reactor_mutex_guard_and_idempotence.1
      reactorWitnessRun 10 reactorWitnessState (0x100000, 0) (by decide)⟩, ?_, ?_⟩
  · exact isn_reactor_mutex_guard_and_idempotence.2.1 0b1010 0b0010 (by decide)
  · exact isn_reactor_mutex_guard_and_idempotence.2.2 0b1010 0b0101 (by decide)
      (by decide) (by decide)

/-- `writeSeq` materialised: writing `l` at offset `i` splices it between the
prefix and the tail of the buffer. -/
theorem writeSeq_eq (l : List Nat) : ∀ (buf : List Nat) (i : Nat),
    i + l.length ≤ buf.length →
    writeSeq buf i l = buf.take i ++ l ++ buf.drop (i + l.length) := by
  induction l with
  | nil => intro buf i h; simp [writeSeq]
  | cons b bs ih =>
    intro buf i h
    simp only [List.length_cons] at h
    have hlt : i < buf.length := by omega
    rw [writeSeq, ih (buf.set i b) (i + 1) (by rw [List.length_set]; omega)]
    rw [List.set_eq_take_cons_drop b hlt]
    have hti : (buf.take i).length = i := by rw [List.length_take]; omega
    have e1 : (buf.take i ++ b :: buf.drop (i + 1)).take (i + 1) = buf.take i ++ [b] := by
      rw [show i + 1 = (buf.take i).length + 1 by omega, List.take_append]
      simp
    have e2 : (buf.take i ++ b :: buf.drop (i + 1)).drop (i + 1 + bs.length) =
        buf.drop (i + (bs.length + 1)) := by
      rw [show i + 1 + bs.length = (buf.take i).length + (1 + bs.length) by omega,
        List.drop_append]
      rw [show 1 + bs.length = bs.length + 1 by omega, List.drop_succ_cons,
        List.drop_drop]
      congr 1
      omega
    rw [e1, e2]
    simp

/-- A header byte (> 0x80) arriving in Idle with an empty scratch starts a
frame: InMessage, CRC seeded from the header, expected length from its low
six bits. -/
theorem frame_loop_header (cc : List Nat → Nat) (st : FrameState) (b : Nat)
    (rest : List Nat) (i : Nat)
    (hstate : st.state = IS_NONE) (hsz : st.recvSize = 0) (hb : 0x80 < b) :
    isn_frame_loop cc st (b :: rest) i =
      isn_frame_loop cc
        { st with state := IS_IN_MESSAGE,
                  crc := if st.crcEnabled then crc8 b else st.crc,
                  recvLen := (b &&& 0x3F) + 1 } rest (i + 1) := by
  rw [isn_frame_loop]
  simp [hstate, hsz, hb, IS_NONE, IS_IN_MESSAGE, IS_FW_MESSAGE]

/-- Absorbing payload bytes in the InMessage state with CRC enabled: each
byte is stored into the staging buffer and folded into the running CRC while
the frame is not yet full. -/
theorem frame_loop_absorb (cc : List Nat → Nat) :
    ∀ (l rest : List Nat) (st : FrameState) (i : Nat),
    st.state = IS_IN_MESSAGE → st.crcEnabled = true →
    st.recvSize + l.length ≤ st.recvLen →
    isn_frame_loop cc st (l ++ rest) i =
      isn_frame_loop cc
        { st with recvBuf := writeSeq st.recvBuf st.recvSize l,
                  recvSize := st.recvSize + l.length,
                  crc := crc8_run st.crc l } rest (i + l.length) := by
  intro l
  induction l with
  | nil =>
    intro rest st i hstate hcrc hlen
    simp [writeSeq, crc8_run]
  | cons b bs ih =>
    intro rest st i hstate hcrc hlen
    simp only [List.length_cons] at hlen
    rw [List.cons_append, isn_frame_loop]
    have hne : ¬ (st.recvSize = st.recvLen) := by omega
    simp [hstate, hcrc, hne, IS_NONE, IS_IN_MESSAGE, IS_FW_MESSAGE]
    have step := ih rest
      { state := 1, crc := crc8 (st.crc ^^^ b), recvBuf := st.recvBuf.set st.recvSize b,
        recvSize := st.recvSize + 1, recvLen := st.recvLen, recvFwed := st.recvFwed,
        lastTs := st.lastTs, rxPackets := st.rxPackets, rxErrors := st.rxErrors,
        rxDropped := st.rxDropped, rxRetries := st.rxRetries, rxCounter := st.rxCounter,
        crcEnabled := true, frameTimeout := st.frameTimeout, hasOther := st.hasOther }
      (i + 1) rfl rfl (by simpa using by omega)
    rw [step]
    have e1 : st.recvSize + 1 + bs.length = st.recvSize + (bs.length + 1) := by omega
    have e2 : i + 1 + bs.length = i + (bs.length + 1) := by omega
    simp only [e1, e2]
    rfl

/-- C1: a Compact-mode (CRC) frame layer in a clean Idle state receiving one
complete frame forwards the payload to the child exactly once when the
trailer byte equals the running CRC over header plus payload, and forwards
nothing while incrementing `rx_errors` by exactly one when it does not. -/
theorem isn_frame_recv_compact_crc_gate (cc : List Nat → Nat) (st : FrameState)
    (now h t : Nat) (payload : List Nat)
    (hbuf : st.recvBuf.length = 64)
    (hstate : st.state = IS_NONE) (hsz : st.recvSize = 0)
    (hcrcE : st.crcEnabled = true)
    (hnotimo : usub32 now st.lastTs ≤ st.frameTimeout)
    (hh : 0x80 < h)
    (hplen : payload.length = (h &&& 0x3F) + 1) :
    ((isn_frame_recv cc st now (h :: payload ++ [t])).fwd =
        if t = crc8_run (crc8 h) payload then [payload] else []) ∧
    ((isn_frame_recv cc st now (h :: payload ++ [t])).st.rxErrors =
        if t = crc8_run (crc8 h) payload then st.rxErrors else st.rxErrors + 1) := by
  have hle63 : h &&& 0x3F ≤ 63 := Nat.and_le_right
  have hto : isn_frame_timeout_check st now = st := by
    rw [isn_frame_timeout_check, if_neg (by omega)]
  have hchain : isn_frame_loop cc { st with lastTs := now } (h :: (payload ++ [t])) 0 =
      isn_frame_loop cc
        { st with lastTs := now, state := IS_IN_MESSAGE, crc := crc8 h,
                  recvLen := (h &&& 0x3F) + 1 } (payload ++ [t]) 1 := by
    rw [frame_loop_header cc _ h (payload ++ [t]) 0 (by simpa using hstate)
      (by simpa using hsz) hh]
    congr 1
    simp [hcrcE]
  have habs : isn_frame_loop cc
      { st with lastTs := now, state := IS_IN_MESSAGE, crc := crc8 h,
                recvLen := (h &&& 0x3F) + 1 } (payload ++ [t]) 1 =
      isn_frame_loop cc
        { st with lastTs := now, state := IS_IN_MESSAGE,
                  recvBuf := writeSeq st.recvBuf 0 payload,
                  recvSize := payload.length,
                  crc := crc8_run (crc8 h) payload,
                  recvLen := (h &&& 0x3F) + 1 }
        [t] (1 + payload.length) := by
    rw [frame_loop_absorb cc payload [t] _ 1 rfl (by simpa using hcrcE)
      (by simp [hsz]; omega)]
    congr 1
    simp [hsz]
  have hoff : List.take payload.length (writeSeq st.recvBuf 0 payload) = payload := by
    rw [writeSeq_eq payload st.recvBuf 0 (by omega)]
    simp
  simp only [isn_frame_recv, isn_frame_recv_body, hto]
  generalize hout : isn_frame_loop cc ({ st with lastTs := now } : FrameState)
      (h :: payload ++ [t]) 0 = out
  have hout2 := habs.symm.trans (hchain.symm.trans hout)
  rw [isn_frame_loop] at hout2
  by_cases hT : t = crc8_run (crc8 h) payload
  · by_cases hpart : cc payload < payload.length
    · simp only [IS_NONE, IS_IN_MESSAGE, IS_FW_MESSAGE] at hout2
      simp [← hplen, hT, hcrcE, hoff, hpart, isn_frame_loop] at hout2
      subst hout2
      simp [hT]
    · simp only [IS_NONE, IS_IN_MESSAGE, IS_FW_MESSAGE] at hout2
      simp [← hplen, hT, hcrcE, hoff, hpart, isn_frame_loop] at hout2
      subst hout2
      simp [hT]
  · simp only [IS_NONE, IS_IN_MESSAGE, IS_FW_MESSAGE] at hout2
    simp [← hplen, hT, hcrcE, hoff, isn_frame_loop] at hout2
    subst hout2
    simp [hT]

/-- Witness for `isn_frame_recv_compact_crc_gate`: the compact ping frame
`C0 00` with its true CRC trailer `A4` is forwarded; with trailer `00` it is
not and `rx_errors` becomes 1. -/
theorem isn_frame_recv_compact_crc_gate_witness :
    (((isn_frame_recv (fun l => l.length) frameWitnessState 0 (0xC0 :: [0x00] ++ [0xA4])).fwd =
        if 0xA4 = crc8_run (crc8 0xC0) [0x00] then [[0x00]] else []) ∧
      ((isn_frame_recv (fun l => l.length) frameWitnessState 0 (0xC0 :: [0x00] ++ [0xA4])).st.rxErrors =
        if 0xA4 = crc8_run (crc8 0xC0) [0x00] then frameWitnessState.rxErrors
        else frameWitnessState.rxErrors + 1)) ∧
    (((isn_frame_recv (fun l => l.length) frameWitnessState 0 (0xC0 :: [0x00] ++ [0x00])).fwd =
        if 0x00 = crc8_run (crc8 0xC0) [0x00] then [[0x00]] else []) ∧
      ((isn_frame_recv (fun l => l.length) frameWitnessState 0 (0xC0 :: [0x00] ++ [0x00])).st.rxErrors =
        if 0x00 = crc8_run (crc8 0xC0) [0x00] then frameWitnessState.rxErrors
        else frameWitnessState.rxErrors + 1)) :=
  ⟨isn_frame_recv_compact_crc_gate (fun l => l.length) frameWitnessState 0 0xC0 0xA4 [0x00]
      (by decide) rfl rfl rfl (by decide) (by decide) (by decide),
   isn_frame_recv_compact_crc_gate (fun l => l.length) frameWitnessState 0 0xC0 0x00 [0x00]
      (by decide) rfl rfl rfl (by decide) (by decide) (by decide)⟩

/-- Counterexample to C5 as stated: in Idle, the byte `0x80` (which the
claim says starts a frame, being ≥ 0x80) is instead accumulated as
out-of-frame data and passed to `other`; the state machine stays Idle
(`isn_frame_recv` tests `*buf > 0x80`, not `>= 0x80`). -/
theorem isn_frame_idle_0x80_cx :
    (isn_frame_recv (fun l => l.length) frameWitnessState 0 [0x80]).st.state = IS_NONE ∧
    (isn_frame_recv (fun l => l.length) frameWitnessState 0 [0x80]).oth = [[0x80]] ∧
    IS_NONE ≠ IS_IN_MESSAGE := by decide

/-- C5 (amended): for a Short/Compact frame receiver in Idle, every received
byte ≤ 0x80 is accumulated into the out-of-frame scratch and flushed to the
`other` layer at end of call, while every byte > 0x80 flushes any pending
out-of-frame data, initializes the CRC with that byte (in CRC mode), records
the expected length as `(byte & 0x3F) + 1`, and transitions to InMessage. -/
theorem isn_frame_idle_byte_classification (cc : List Nat → Nat) (st : FrameState)
    (now b : Nat)
    (hbuf : st.recvBuf.length = 64)
    (hstate : st.state = IS_NONE) (hlen0 : st.recvLen = 0)
    (hsz : st.recvSize < 64)
    (hnotimo : usub32 now st.lastTs ≤ st.frameTimeout)
    (hother : st.hasOther = true) :
    (b ≤ 0x80 →
      (isn_frame_recv cc st now [b]).oth = [st.recvBuf.take st.recvSize ++ [b]] ∧
      (isn_frame_recv cc st now [b]).st.state = IS_NONE ∧
      (isn_frame_recv cc st now [b]).fwd = []) ∧
    (0x80 < b →
      (isn_frame_recv cc st now [b]).oth =
        (if st.recvSize ≠ 0 then [st.recvBuf.take st.recvSize] else []) ∧
      (isn_frame_recv cc st now [b]).st.state = IS_IN_MESSAGE ∧
      (isn_frame_recv cc st now [b]).st.crc = (if st.crcEnabled then crc8 b else st.crc) ∧
      (isn_frame_recv cc st now [b]).st.recvLen = (b &&& 0x3F) + 1 ∧
      (isn_frame_recv cc st now [b]).fwd = []) := by
  have hto : isn_frame_timeout_check st now = st := by
    rw [isn_frame_timeout_check, if_neg (by omega)]
  have hax : (st.recvBuf.set st.recvSize b).take (st.recvSize + 1) =
      st.recvBuf.take st.recvSize ++ [b] := by
    rw [List.set_eq_take_cons_drop b (by omega)]
    rw [show st.recvSize + 1 = (st.recvBuf.take st.recvSize).length + 1 by
      simp [List.length_take]; omega]
    rw [List.take_append]
    simp
  constructor
  · intro hb
    have hnb : ¬ (0x80 < b) := by omega
    simp only [isn_frame_recv, isn_frame_recv_body, hto]
    rw [isn_frame_loop]
    simp [hstate, hlen0, hnb, hother, hax, IS_NONE, IS_IN_MESSAGE, IS_FW_MESSAGE,
      isn_frame_loop]
  · intro hb
    simp only [isn_frame_recv, isn_frame_recv_body, hto]
    rw [isn_frame_loop]
    by_cases hz : st.recvSize = 0
    · simp [hstate, hlen0, hb, hz, hother, IS_NONE, IS_IN_MESSAGE, IS_FW_MESSAGE,
        isn_frame_loop]
    · simp [hstate, hlen0, hb, hz, hother, IS_NONE, IS_IN_MESSAGE, IS_FW_MESSAGE,
        isn_frame_loop]

/-- Witness for `isn_frame_idle_byte_classification`: an ASCII byte `0x41`
passes through to `other`; the header byte `0xC5` starts a 6-byte frame. -/
theorem isn_frame_idle_byte_classification_witness :
    ((isn_frame_recv (fun l => l.length) frameWitnessState 0 [0x41]).oth =
        [frameWitnessState.recvBuf.take frameWitnessState.recvSize ++ [0x41]] ∧
      (isn_frame_recv (fun l => l.length) frameWitnessState 0 [0x41]).st.state = IS_NONE ∧
      (isn_frame_recv (fun l => l.length) frameWitnessState 0 [0x41]).fwd = []) ∧
    ((isn_frame_recv (fun l => l.length) frameWitnessState 0 [0xC5]).oth =
        (if frameWitnessState.recvSize ≠ 0
         then [frameWitnessState.recvBuf.take frameWitnessState.recvSize] else []) ∧
      (isn_frame_recv (fun l => l.length) frameWitnessState 0 [0xC5]).st.state = IS_IN_MESSAGE ∧
      (isn_frame_recv (fun l => l.length) frameWitnessState 0 [0xC5]).st.crc =
        (if frameWitnessState.crcEnabled then crc8 0xC5 else frameWitnessState.crc) ∧
      (isn_frame_recv (fun l => l.length) frameWitnessState 0 [0xC5]).st.recvLen =
        (0xC5 &&& 0x3F) + 1 ∧
      (isn_frame_recv (fun l => l.length) frameWitnessState 0 [0xC5]).fwd = []) :=
  ⟨(isn_frame_idle_byte_classification (fun l => l.length) frameWitnessState 0 0x41
      (by decide) rfl rfl (by decide) (by decide) rfl).1 (by decide),
   (isn_frame_idle_byte_classification (fun l => l.length) frameWitnessState 0 0xC5
      (by decide) rfl rfl (by decide) (by decide) rfl).2 (by decide)⟩

/-- Counterexample to C6 as stated: a mid-frame layer whose elapsed time
exactly equals `frame_timeout` (timeout 100, last byte at 0, now 100) is not
reset — the state stays InMessage and no drop is counted, because the C
check is `elapsed > frame_timeout`, strictly. -/
theorem isn_frame_timeout_equal_cx :
    (isn_frame_recv (fun l => l.length)
      ⟨IS_IN_MESSAGE, 7, List.replicate 64 0, 1, 3, 0, 0, 0, 0, 0, 0, 0, true, 100, true⟩
      100 [0x05]).st.state = IS_IN_MESSAGE ∧
    (isn_frame_recv (fun l => l.length)
      ⟨IS_IN_MESSAGE, 7, List.replicate 64 0, 1, 3, 0, 0, 0, 0, 0, 0, 0, true, 100, true⟩
      100 [0x05]).st.rxDropped = 0 ∧
    IS_IN_MESSAGE ≠ IS_NONE := by decide

/-- C6 (amended): on every recv call the idle-timeout check runs first; an
elapsed time of exactly `frame_timeout + 1` (one tick more) counts as
expired — the layer resets to Idle and counts a drop of any in-flight frame —
while an elapsed time exactly equal to `frame_timeout` does not reset the
state. -/
theorem isn_frame_timeout_boundary :
    (∀ (st : FrameState) (now : Nat),
        usub32 now st.lastTs = st.frameTimeout + 1 → st.recvLen ≠ 0 →
        isn_frame_timeout_check st now =
          { st with state := IS_NONE, rxDropped := st.rxDropped + 1,
                    recvSize := 0, recvLen := 0 }) ∧
    (∀ (st : FrameState) (now : Nat),
        usub32 now st.lastTs = st.frameTimeout →
        isn_frame_timeout_check st now = st) ∧
    (∀ (cc : List Nat → Nat) (st : FrameState) (now : Nat) (src : List Nat),
        isn_frame_recv cc st now src =
          isn_frame_recv_body cc
            { isn_frame_timeout_check st now with lastTs := now } src) := by
  refine ⟨?_, ?_, ?_⟩
  · intro st now h hnz
    rw [isn_frame_timeout_check, if_pos (by omega)]
    simp [hnz]
  · intro st now h
    rw [isn_frame_timeout_check, if_neg (by omega)]
  · intro cc st now src
    rfl

/-- Witness for `isn_frame_timeout_boundary` at elapsed 101 and 100 against
timeout 100, plus the recv decomposition on a concrete call. -/
theorem isn_frame_timeout_boundary_witness :
    (isn_frame_timeout_check
        ⟨IS_IN_MESSAGE, 7, List.replicate 64 0, 1, 3, 0, 0, 0, 0, 0, 0, 0, true, 100, true⟩ 101 =
      { (⟨IS_IN_MESSAGE, 7, List.replicate 64 0, 1, 3, 0, 0, 0, 0, 0, 0, 0, true, 100, true⟩ : FrameState) with
          state := IS_NONE, rxDropped := 0 + 1, recvSize := 0, recvLen := 0 }) ∧
    (isn_frame_timeout_check
        ⟨IS_IN_MESSAGE, 7, List.replicate 64 0, 1, 3, 0, 0, 0, 0, 0, 0, 0, true, 100, true⟩ 100 =
      ⟨IS_IN_MESSAGE, 7, List.replicate 64 0, 1, 3, 0, 0, 0, 0, 0, 0, 0, true, 100, true⟩) ∧
    (isn_frame_recv (fun l => l.length) frameWitnessState 5 [0x41] =
      isn_frame_recv_body (fun l => l.length)
        { isn_frame_timeout_check frameWitnessState 5 with lastTs := 5 } [0x41]) :=
  ⟨isn_frame_timeout_boundary.1 _ 101 (by decide) (by decide),
   isn_frame_timeout_boundary.2.1 _ 100 (by decide),
   isn_frame_timeout_boundary.2.2 (fun l => l.length) frameWitnessState 5 [0x41]⟩

end Isn